import Mathlib

/-!
Verification of the Sidewalk-Champion simulation core specification against
the repository's sources.  The repository ships a launcher script
(Sidewalk_Champion.pyw) and the XML schemas validating character and stage
data; those parts are embedded directly.  The simulation core itself
(input buffer, motion matcher, collision resolver, match orchestrator) is
not among the source files, so those components are modelled from the
specification's words and marked as such in their doc comments.
-/

namespace SWC

/-! ## Character-data schema embedding

Shallow embedding of the XSD in the repository's character-data schema.
An XML attribute value is an integer, a boolean or a string; an element's
attributes are a name-value association list; each simple type of the
schema becomes an `AttrType`, and element validation checks every declared
attribute for presence (when required) and type/range conformance. -/

/-- A parsed XML attribute value. -/
inductive AttrVal where
  | int : Int → AttrVal
  | bool : Bool → AttrVal
  | str : String → AttrVal
deriving DecidableEq

/-- A simple type of the schema: an integer range (lower bound, optional
upper bound), a boolean, or an unrestricted string. -/
inductive AttrType where
  | intRange : Int → Option Int → AttrType
  | boolT : AttrType
  | strT : AttrType
deriving DecidableEq

/-- Conformance of a value to a simple type, as the schema restricts it. -/
def AttrVal.hasType : AttrVal → AttrType → Bool
  | .int n, .intRange lo hi =>
      decide (lo ≤ n) && (match hi with | some h => decide (n ≤ h) | none => true)
  | .bool _, .boolT => true
  | .str _, .strT => true
  | _, _ => false

/-- xAttribute of the schema: integers 0..384. -/
def xAttribute : AttrType := .intRange 0 (some 384)

/-- yAttribute of the schema: integers 0..226. -/
def yAttribute : AttrType := .intRange 0 (some 226)

/-- speedAttribute of the schema: integers 0..700. -/
def speedAttribute : AttrType := .intRange 0 (some 700)

/-- positiveOrZero of the schema: integers with lower bound 0. -/
def positiveOrZero : AttrType := .intRange 0 none

/-- The effect attribute's anonymous type: pattern [0-2] over integers. -/
def effectAttribute : AttrType := .intRange 0 (some 2)

/-- One attribute declaration of a complex type: name, simple type and
whether the schema marks it use-required. -/
structure AttrDecl where
  name : String
  type : AttrType
  required : Bool
deriving DecidableEq

/-- The attributes an element carries, as (name, value) pairs. -/
abbrev Attrs := List (String × AttrVal)

/-- The value an element gives a named attribute, when present. -/
def lookupAttr (as : Attrs) (n : String) : Option AttrVal :=
  (as.find? (fun p => p.1 = n)).map Prod.snd

/-- Validation of an element's attributes against a complex type's attribute
declarations: each declared attribute is present and well-typed or absent
and optional, and no undeclared attribute appears. -/
def checkAttrs (spec : List AttrDecl) (as : Attrs) : Bool :=
  spec.all (fun s =>
    match lookupAttr as s.name with
    | some v => v.hasType s.type
    | none => !s.required) &&
  as.all (fun p => spec.any (fun s => s.name = p.1))

/-- hurtboxType of the schema. -/
def hurtboxAttrDecls : List AttrDecl :=
  [⟨"x_offset", xAttribute, true⟩, ⟨"y_offset", yAttribute, true⟩,
   ⟨"width", xAttribute, true⟩, ⟨"height", yAttribute, true⟩]

/-- hitboxType of the schema: extends hurtboxType with the attack data
attributes.  The knockback attribute is a single xAttribute-typed integer. -/
def hitboxAttrDecls : List AttrDecl :=
  hurtboxAttrDecls ++
  [⟨"damage", positiveOrZero, true⟩, ⟨"hitstun", positiveOrZero, true⟩,
   ⟨"blockstun", positiveOrZero, true⟩, ⟨"knockback", xAttribute, true⟩,
   ⟨"dizzy_stun", positiveOrZero, true⟩, ⟨"effect", effectAttribute, true⟩,
   ⟨"can_block_high", .boolT, true⟩, ⟨"can_block_low", .boolT, true⟩]

/-- projectileType of the schema. -/
def projectileAttrDecls : List AttrDecl :=
  [⟨"filepath", .strT, true⟩, ⟨"x_offset", xAttribute, true⟩,
   ⟨"y_offset", yAttribute, true⟩, ⟨"x_speed", speedAttribute, true⟩,
   ⟨"y_speed", speedAttribute, true⟩]

/-- frameType's attributes. -/
def frameAttrDecls : List AttrDecl :=
  [⟨"duration", positiveOrZero, true⟩, ⟨"cancelable", .intRange 0 (some 2), true⟩,
   ⟨"move_x", xAttribute, true⟩, ⟨"move_y", yAttribute, true⟩,
   ⟨"sfx", .strT, false⟩]

/-- actionType's attributes. -/
def actionAttrDecls : List AttrDecl :=
  [⟨"name", .strT, true⟩, ⟨"spritesheet_path", .strT, true⟩,
   ⟨"x_offset", xAttribute, true⟩, ⟨"condition", positiveOrZero, true⟩,
   ⟨"is_multi_hit", .boolT, true⟩, ⟨"input_priority", positiveOrZero, true⟩,
   ⟨"meter_gain", positiveOrZero, true⟩, ⟨"meter_needed", positiveOrZero, true⟩,
   ⟨"proximity", positiveOrZero, true⟩, ⟨"start_counter_frame", positiveOrZero, true⟩]

/-- The ten input symbols the inputStepType enumeration admits. -/
def inputAlphabet : List String :=
  ["Up", "Down", "Forward", "Back",
   "Light Punch", "Medium Punch", "Heavy Punch",
   "Light Kick", "Medium Kick", "Heavy Kick"]

/-- inputStepType: at least one input child, each an enumerated symbol. -/
def validInputStep (step : List String) : Bool :=
  decide (1 ≤ step.length) && step.all (fun s => decide (s ∈ inputAlphabet))

/-- inputListType: zero or more input steps. -/
def validInputList (steps : List (List String)) : Bool :=
  steps.all validInputStep

/-- A frame element as parsed: child hurtbox/hitbox/projectile elements and
the frame's own attributes. -/
structure RawFrame where
  hurtboxes : List Attrs
  hitboxes : List Attrs
  projectiles : List Attrs
  attrs : Attrs
deriving DecidableEq

/-- frameType validation. -/
def validFrame (f : RawFrame) : Bool :=
  f.hurtboxes.all (checkAttrs hurtboxAttrDecls) &&
  f.hitboxes.all (checkAttrs hitboxAttrDecls) &&
  f.projectiles.all (checkAttrs projectileAttrDecls) &&
  checkAttrs frameAttrDecls f.attrs

/-- An action element as parsed: frame children, input_list children (the
schema requires exactly one), and the action's attributes. -/
structure RawAction where
  frames : List RawFrame
  inputLists : List (List (List String))
  attrs : Attrs
deriving DecidableEq

/-- actionType validation: one or more frames, exactly one input_list
(minOccurs and maxOccurs both 1), valid children and attributes. -/
def validAction (a : RawAction) : Bool :=
  decide (1 ≤ a.frames.length) && a.frames.all validFrame &&
  decide (a.inputLists.length = 1) && a.inputLists.all validInputList &&
  checkAttrs actionAttrDecls a.attrs

/-! ## Launcher embedding (Sidewalk_Champion.pyw)

check_pygame_modules is embedded over a small model of the Python values
its comparisons touch: pygame.display.get_init (referenced without calling,
hence a function object), pygame.font.get_init() (a bool), and
pygame.mixer.get_init() (a (frequency, format, channels) tuple, or None on
failure).  Python's == against False is only true for the boolean False
among these values. -/

/-- A Python value reaching one of the comparisons in the launcher. -/
inductive PyVal where
  | pynone : PyVal
  | pybool : Bool → PyVal
  | pyfunc : String → PyVal
  | pytuple : List Int → PyVal
deriving DecidableEq

/-- Python's `v == False` for the values above: true only for `False`. -/
def pyEqFalse : PyVal → Bool
  | .pybool b => !b
  | _ => false

/-- The initialization outcome of the three pygame modules the launcher
checks. -/
structure PygameState where
  displayInit : Bool
  fontInit : Bool
  mixerInit : Option (Int × Int × Int)
deriving DecidableEq

/-- The attribute expression pygame.display.get_init (no call): a function
object. -/
def displayGetInitAttr : PyVal := .pyfunc "pygame.display.get_init"

/-- pygame.mixer.get_init(): the mixer settings tuple, or None when the
mixer did not initialize. -/
def mixerGetInit (st : PygameState) : PyVal :=
  match st.mixerInit with
  | some (f, fo, ch) => .pytuple [f, fo, ch]
  | none => .pynone

/-- check_pygame_modules of Sidewalk_Champion.pyw, line for line: start
with success = True and set it to False on each comparison that holds. -/
def check_pygame_modules (st : PygameState) : Bool :=
  let success := true
  let success := if pyEqFalse displayGetInitAttr then false else success
  let success := if pyEqFalse (.pybool st.fontInit) then false else success
  let success := if pyEqFalse (mixerGetInit st) then false else success
  success

/-! ## Input symbols and snapshots

Modelled from the spec: the fixed 10-symbol logical input alphabet, and a
snapshot of the simultaneously active symbols at one tick. -/

/-- One logical input symbol of the fixed 10-symbol alphabet. -/
inductive Sym where
  | up | down | forward | back
  | lightP | mediumP | heavyP
  | lightK | mediumK | heavyK
deriving DecidableEq

/-- The set of symbols active at one tick, as a list. -/
abbrev Snap := List Sym

/-! ## Input Buffer

Modelled from the spec: the Input Buffer records one timestamped snapshot
per tick in a bounded window; push appends and evicts the oldest entries
over capacity; history returns the most recent `depth` snapshots in
chronological order (oldest first), fewer when the history is shorter. -/

/-- Modelled from the spec: the per-character Input Buffer, a bounded
chronological list (oldest first) of (tick, active inputs) snapshots. -/
structure InputBuffer where
  capacity : Nat
  entries : List (Nat × Snap)
deriving DecidableEq

/-- Modelled from the spec: push appends a snapshot and evicts the oldest
entries when the capacity is exceeded. -/
def push (b : InputBuffer) (tick : Nat) (inputs : Snap) : InputBuffer :=
  let es := b.entries ++ [(tick, inputs)]
  { b with entries := es.drop (es.length - b.capacity) }

/-- Modelled from the spec: history returns the most recent `depth`
snapshots in chronological order (oldest first), fewer when the buffer
holds fewer; a pure function, so it has no side effect and never fails. -/
def history (b : InputBuffer) (depth : Nat) : List (Nat × Snap) :=
  b.entries.drop (b.entries.length - depth)

/-! ## Motion Matcher

Modelled from the spec: matches performs a forward scan of the history;
each step of the InputSequence must be satisfied (as a subset) by some
snapshot, snapshots are consumed in chronological order without reuse, and
noise snapshots are skipped rather than causing failure. -/

/-- An InputSequence as the Motion Matcher consumes it: the ordered steps,
each a set of simultaneous symbols. -/
abbrev InputSeq := List Snap

/-- A step is satisfied by a snapshot when every required symbol is active
in it. -/
def stepSatisfied (step : Snap) (snap : Snap) : Bool :=
  step.all (fun s => snap.contains s)

/-- Modelled from the spec: the forward scan.  The first unmatched step is
tested against the oldest unconsumed snapshot; a satisfying snapshot is
consumed, any other is skipped as noise. -/
def matchScan : InputSeq → List Snap → Bool
  | [], _ => true
  | _ :: _, [] => false
  | step :: rest, snap :: hist =>
    if stepSatisfied step snap then matchScan rest hist
    else matchScan (step :: rest) hist

/-- Modelled from the spec: matches(sequence, history) over the snapshots
of the retained history, oldest first. -/
def seqMatches (seq : InputSeq) (hist : List Snap) : Bool :=
  matchScan seq hist

/-- The declarative matching relation the spec describes: every step is
satisfied by some snapshot, snapshots are consumed in chronological order,
none is reused, and intervening noise snapshots are skipped. -/
inductive MatchRel : InputSeq → List Snap → Prop where
  | nil (hist : List Snap) : MatchRel [] hist
  | consume (step : Snap) (rest : InputSeq) (snap : Snap) (hist : List Snap) :
      stepSatisfied step snap = true → MatchRel rest hist →
      MatchRel (step :: rest) (snap :: hist)
  | skip (seq : InputSeq) (snap : Snap) (hist : List Snap) :
      MatchRel seq hist → MatchRel seq (snap :: hist)

/-! ## Collision Resolver

Modelled from the spec: world-space axis-aligned rectangles, hitbox attack
data, block resolution by guard stance, counter amplification, and at most
one HitEvent per ordered (attacker, defender) pair per tick with the first
qualifying overlap in hitbox declaration order winning. -/

/-- An axis-aligned rectangle (position and size). -/
structure Rect where
  x : Int
  y : Int
  w : Int
  h : Int
deriving DecidableEq

/-- Axis-aligned rectangle overlap. -/
def overlaps (a b : Rect) : Bool :=
  decide (a.x < b.x + b.w) && decide (b.x < a.x + a.w) &&
  decide (a.y < b.y + b.h) && decide (b.y < a.y + a.h)

/-- Modelled from the spec: a Hitbox, its rectangle plus damage, hitstun
ticks, blockstun ticks, knockback, dizzy-stun contribution, effect category
(0 normal, 1 launcher, 2 unblockable-class) and blockability flags. -/
structure Hitbox where
  rect : Rect
  damage : Nat
  hitstun : Nat
  blockstun : Nat
  knockback : Nat
  dizzy_stun : Nat
  effect : Nat
  can_block_high : Bool
  can_block_low : Bool
deriving DecidableEq

/-- The defender's guard stance. -/
inductive GuardStance where
  | standing | low
deriving DecidableEq

/-- Modelled from the spec: what the resolver needs to know about the
defender this tick — world-space hurtboxes, blocking state and stance,
hit invulnerability, and the open counter-hit window. -/
structure DefenderInfo where
  hurtboxes : List Rect
  blocking : Bool
  stance : GuardStance
  invulnerable : Bool
  counterOpen : Bool
deriving DecidableEq

/-- Modelled from the spec: a Hitbox's block flags permit blocking from
the defender's guard stance — high flag for a standing guard, low flag for
a low guard. -/
def canBlock (hb : Hitbox) : GuardStance → Bool
  | .standing => hb.can_block_high
  | .low => hb.can_block_low

/-- Modelled from the spec: the transient HitEvent the resolver produces
and the orchestrator consumes within the tick. -/
structure HitEvent where
  attacker : Nat
  defender : Nat
  hitbox : Hitbox
  blocked : Bool
  damage : Nat
  stun : Nat
  knockback : Nat
deriving DecidableEq

/-- Modelled from the spec: resolve one landed hitbox against the defender.
A blocking defender whose stance the hitbox's flags permit takes blockstun
and zero damage; otherwise full hit resolution applies, amplified when the
defender's counter-hit window is open. -/
def resolveHit (aId dId : Nat) (hb : Hitbox) (d : DefenderInfo) : HitEvent :=
  if d.blocking && canBlock hb d.stance then
    { attacker := aId, defender := dId, hitbox := hb, blocked := true,
      damage := 0, stun := hb.blockstun, knockback := hb.knockback }
  else
    { attacker := aId, defender := dId, hitbox := hb, blocked := false,
      damage := if d.counterOpen then 2 * hb.damage else hb.damage,
      stun := hb.hitstun, knockback := hb.knockback }

/-- A hitbox qualifies when it overlaps any of the defender's hurtboxes. -/
def hbQualifies (hb : Hitbox) (d : DefenderInfo) : Bool :=
  d.hurtboxes.any (fun hu => overlaps hb.rect hu)

/-- Modelled from the spec: resolve one ordered (attacker, defender) pair.
An invulnerable defender, or an attacker still in its multi-hit cooldown,
yields no event; otherwise the first qualifying hitbox in declaration
order yields the pair's single HitEvent. -/
def resolvePair (aId dId : Nat) (hbs : List Hitbox) (cooldown : Bool)
    (d : DefenderInfo) : Option HitEvent :=
  if d.invulnerable || cooldown then none
  else (hbs.find? (fun hb => hbQualifies hb d)).map (fun hb => resolveHit aId dId hb d)

/-- Modelled from the spec: one tick's resolution pass over both ordered
pairs; character 1 attacks character 2 and conversely. -/
def resolveTick (hbs1 : List Hitbox) (cd1 : Bool) (d1 : DefenderInfo)
    (hbs2 : List Hitbox) (cd2 : Bool) (d2 : DefenderInfo) : List HitEvent :=
  (resolvePair 1 2 hbs1 cd1 d2).toList ++ (resolvePair 2 1 hbs2 cd2 d1).toList

/-! ## Character State Machine and Match Orchestrator

Modelled from the spec: per-tick frame advancement, priority-based action
selection through the Motion Matcher, frame translation clamped to the
arena, hit application with stamina clamped at zero forcing KO, dizzy on
reaching the stun threshold, and the round outcome. -/

/-- Modelled from the spec: one frame of an action — duration in ticks,
cancelability tier (0 none, 1 special-only, 2 any), per-axis translation,
and the frame's hurtbox and hitbox rectangles local to the character. -/
structure FrameDef where
  duration : Nat
  cancelable : Nat
  moveX : Int
  moveY : Int
  hurtboxes : List Rect
  hitboxes : List Hitbox
deriving DecidableEq

/-- Modelled from the spec: an immutable ActionDefinition — required
InputSequence, frames, selection priority, activation condition code,
proximity requirement (0 for none), meter cost and gain. -/
structure ActionDef where
  seq : InputSeq
  frames : List FrameDef
  priority : Nat
  condition : Nat
  proximity : Nat
  meterNeeded : Nat
  meterGain : Nat
deriving DecidableEq

/-- The idle frame a character falls back to when a reference is out of
range; load-time validation rules this out for real data. -/
def defaultFrame : FrameDef :=
  { duration := 1, cancelable := 2, moveX := 0, moveY := 0,
    hurtboxes := [], hitboxes := [] }

/-- The idle action used as a fallback lookup default. -/
def defaultActionDef : ActionDef :=
  { seq := [], frames := [defaultFrame], priority := 0, condition := 0,
    proximity := 0, meterNeeded := 0, meterGain := 0 }

/-- Modelled from the spec: the live CharacterState a Character State
Machine owns and mutates each tick. -/
structure CharacterState where
  posX : Int
  posY : Int
  facingRight : Bool
  stamina : Int
  meter : Nat
  stunAcc : Nat
  stunThreshold : Nat
  actionIdx : Nat
  frameIdx : Nat
  ticksLeft : Nat
  stunTicks : Nat
  hitCooldown : Nat
  blocking : Bool
  stance : GuardStance
  invulnerable : Bool
  counterOpen : Bool
  ko : Bool
  dizzy : Bool
deriving DecidableEq

/-- The arena's horizontal limits; the ground is y = 0. -/
structure Arena where
  left : Int
  right : Int
deriving DecidableEq

/-- The character's current frame, through its current action. -/
def currentFrame (tbl : List ActionDef) (st : CharacterState) : FrameDef :=
  (tbl.getD st.actionIdx defaultActionDef).frames.getD st.frameIdx defaultFrame

/-- Modelled from the spec: the activation condition code against the
character's situational state — 0 always, 1 grounded, 2 airborne. -/
def situationOk (cond : Nat) (st : CharacterState) : Bool :=
  match cond with
  | 0 => true
  | 1 => decide (st.posY = 0)
  | 2 => !(decide (st.posY = 0))
  | _ => false

/-- Modelled from the spec: an action qualifies for selection when its
condition matches the situation, its proximity requirement is satisfied,
its meter cost is affordable, and its InputSequence matches the history. -/
def qualifies (a : ActionDef) (st : CharacterState) (dist : Int)
    (hist : List Snap) : Bool :=
  situationOk a.condition st &&
  (decide (a.proximity = 0) || decide (dist.natAbs ≤ a.proximity)) &&
  decide (a.meterNeeded ≤ st.meter) &&
  seqMatches a.seq hist

/-- Of two qualifying candidates keep the strictly higher priority,
breaking ties in favour of the earlier declaration. -/
def pickBest (best : Option (Nat × ActionDef)) (cand : Nat × ActionDef) :
    Option (Nat × ActionDef) :=
  match best with
  | none => some cand
  | some b => if b.2.priority < cand.2.priority then some cand else some b

/-- Modelled from the spec: the index of the highest-priority qualifying
action, declaration order breaking ties, when any qualifies. -/
def selectAction (tbl : List ActionDef) (st : CharacterState) (dist : Int)
    (hist : List Snap) : Option Nat :=
  ((tbl.enum.filter (fun c => qualifies c.2 st dist hist)).foldl pickBest none).map
    Prod.fst

/-- Modelled from the spec: enter action i at its first frame, paying its
meter cost. -/
def beginAction (tbl : List ActionDef) (st : CharacterState) (i : Nat) :
    CharacterState :=
  let a := tbl.getD i defaultActionDef
  { st with actionIdx := i, frameIdx := 0,
            ticksLeft := (a.frames.getD 0 defaultFrame).duration,
            meter := st.meter - a.meterNeeded }

/-- Modelled from the spec: advance the frame timer — remain in the frame,
step to the next frame, or on exhaustion select a new action, falling back
to the default action at index 0. -/
def advanceTimer (tbl : List ActionDef) (st : CharacterState) (dist : Int)
    (hist : List Snap) : CharacterState :=
  if 1 < st.ticksLeft then { st with ticksLeft := st.ticksLeft - 1 }
  else
    let a := tbl.getD st.actionIdx defaultActionDef
    if st.frameIdx + 1 < a.frames.length then
      { st with frameIdx := st.frameIdx + 1,
                ticksLeft := (a.frames.getD (st.frameIdx + 1) defaultFrame).duration }
    else
      match selectAction tbl st dist hist with
      | some i => beginAction tbl st i
      | none => beginAction tbl st 0

/-- Clamp a coordinate into the arena's horizontal limits. -/
def clampX (ar : Arena) (x : Int) : Int := max ar.left (min ar.right x)

/-- Modelled from the spec: apply the frame's translation (mirrored when
facing left), clamp to the arena, decay the stun accumulator and the
multi-hit cooldown. -/
def applyMove (ar : Arena) (st : CharacterState) (fr : FrameDef) :
    CharacterState :=
  let dx := if st.facingRight then fr.moveX else -fr.moveX
  { st with posX := clampX ar (st.posX + dx),
            posY := max 0 (st.posY + fr.moveY),
            stunAcc := st.stunAcc - 1,
            hitCooldown := st.hitCooldown - 1 }

/-- Modelled from the spec: one tick of the Character State Machine.  A
KO'd character stays down; hitstun or blockstun ticks away with no
reselection; otherwise selection pre-empts the current frame only when it
is cancelable, and the frame's translation is applied. -/
def stepCharacter (tbl : List ActionDef) (ar : Arena) (st : CharacterState)
    (dist : Int) (hist : List Snap) : CharacterState :=
  if st.ko then st
  else if 0 < st.stunTicks then
    { st with stunTicks := st.stunTicks - 1, stunAcc := st.stunAcc - 1,
              hitCooldown := st.hitCooldown - 1 }
  else
    let fr := currentFrame tbl st
    let st1 :=
      match selectAction tbl st dist hist with
      | some i => if fr.cancelable = 2 then beginAction tbl st i
                  else advanceTimer tbl st dist hist
      | none => advanceTimer tbl st dist hist
    applyMove ar st1 (currentFrame tbl st1)

/-- Modelled from the spec: apply one HitEvent to the defender — damage
clamps stamina to zero, which forces KO; dizzy stun accumulates and dizzy
triggers at the threshold; stun ticks impose the forced recovery. -/
def applyHit (st : CharacterState) (ev : HitEvent) : CharacterState :=
  let stamina' := max 0 (st.stamina - (ev.damage : Int))
  let stunAcc' := st.stunAcc + ev.hitbox.dizzy_stun
  { st with stamina := stamina',
            stunAcc := stunAcc',
            stunTicks := ev.stun,
            ko := st.ko || decide (stamina' = 0),
            dizzy := st.dizzy || decide (st.stunThreshold ≤ stunAcc') }

/-- Apply to character `who` every event naming it as defender. -/
def applyEvents (who : Nat) (st : CharacterState) (evs : List HitEvent) :
    CharacterState :=
  evs.foldl (fun s ev => if ev.defender = who then applyHit s ev else s) st

/-- The modelling choice for the spec's open multi-hit cooldown rule: a
fixed tick count before the same attacker may land again. -/
def multiHitCooldownTicks : Nat := 4

/-- Modelled from the spec: meter gain to the attacker for each landed
event, and the start of its multi-hit cooldown. -/
def rewardAttacker (tbl : List ActionDef) (who : Nat) (st : CharacterState)
    (evs : List HitEvent) : CharacterState :=
  let n := (evs.filter (fun e => e.attacker = who)).length
  if n = 0 then st
  else { st with meter := st.meter + n * (tbl.getD st.actionIdx defaultActionDef).meterGain,
                 hitCooldown := multiHitCooldownTicks }

/-- The round's outcome as the orchestrator reports it. -/
inductive Outcome where
  | inProgress | p1Win | p2Win | draw
deriving DecidableEq

/-- KO detection into the round outcome. -/
def computeOutcome (p1 p2 : CharacterState) : Outcome :=
  if p1.ko && p2.ko then .draw
  else if p2.ko then .p1Win
  else if p1.ko then .p2Win
  else .inProgress

/-- The fixed data a round runs against: both Action Tables, the arena,
and both characters' load-time stats. -/
structure Config where
  tbl1 : List ActionDef
  tbl2 : List ActionDef
  arena : Arena
  maxStamina1 : Nat
  maxStamina2 : Nat
  stunThreshold1 : Nat
  stunThreshold2 : Nat
  bufferCapacity : Nat
deriving DecidableEq

/-- The whole simulation state between ticks, including the tick's
observable HitEvents and the round outcome. -/
structure SimState where
  p1 : CharacterState
  p2 : CharacterState
  buf1 : InputBuffer
  buf2 : InputBuffer
  tickNo : Nat
  events : List HitEvent
  outcome : Outcome
deriving DecidableEq

/-- A character's world-space hitbox rectangle (mirrored when facing
left). -/
def worldRect (st : CharacterState) (r : Rect) : Rect :=
  if st.facingRight then { r with x := st.posX + r.x, y := st.posY + r.y }
  else { r with x := st.posX - r.x - r.w, y := st.posY + r.y }

/-- The character's current-frame hitboxes in world space. -/
def attackHitboxes (tbl : List ActionDef) (st : CharacterState) : List Hitbox :=
  (currentFrame tbl st).hitboxes.map (fun hb => { hb with rect := worldRect st hb.rect })

/-- The resolver's view of a character as defender. -/
def defenderInfo (tbl : List ActionDef) (st : CharacterState) : DefenderInfo :=
  { hurtboxes := (currentFrame tbl st).hurtboxes.map (worldRect st),
    blocking := st.blocking, stance := st.stance,
    invulnerable := st.invulnerable, counterOpen := st.counterOpen }

/-- Modelled from the spec: one orchestrator tick — record inputs, advance
both state machines, resolve collisions, apply the HitEvents, reward the
attackers and detect the round outcome.  A finished round is frozen. -/
def tick (cfg : Config) (s : SimState) (in1 in2 : Snap) : SimState :=
  if s.outcome ≠ .inProgress then s
  else
    let buf1 := push s.buf1 s.tickNo in1
    let buf2 := push s.buf2 s.tickNo in2
    let hist1 := (history buf1 cfg.bufferCapacity).map Prod.snd
    let hist2 := (history buf2 cfg.bufferCapacity).map Prod.snd
    let dist := s.p1.posX - s.p2.posX
    let p1a := stepCharacter cfg.tbl1 cfg.arena s.p1 dist hist1
    let p2a := stepCharacter cfg.tbl2 cfg.arena s.p2 dist hist2
    let evs := resolveTick (attackHitboxes cfg.tbl1 p1a) (decide (0 < p1a.hitCooldown))
      (defenderInfo cfg.tbl1 p1a) (attackHitboxes cfg.tbl2 p2a)
      (decide (0 < p2a.hitCooldown)) (defenderInfo cfg.tbl2 p2a)
    let p1b := rewardAttacker cfg.tbl1 1 (applyEvents 1 p1a evs) evs
    let p2b := rewardAttacker cfg.tbl2 2 (applyEvents 2 p2a evs) evs
    { p1 := p1b, p2 := p2b, buf1 := buf1, buf2 := buf2,
      tickNo := s.tickNo + 1, events := evs,
      outcome := computeOutcome p1b p2b }

/-- A character's state at round start, from its load-time stats. -/
def initialCharacter (maxStamina stunThreshold : Nat) (x : Int)
    (facingRight : Bool) : CharacterState :=
  { posX := x, posY := 0, facingRight := facingRight,
    stamina := (maxStamina : Int), meter := 0, stunAcc := 0,
    stunThreshold := stunThreshold, actionIdx := 0, frameIdx := 0,
    ticksLeft := 1, stunTicks := 0, hitCooldown := 0, blocking := false,
    stance := .standing, invulnerable := false, counterOpen := false,
    ko := false, dizzy := false }

/-- Modelled from the spec: the round-start state both runs begin from. -/
def roundStart (cfg : Config) : SimState :=
  { p1 := initialCharacter cfg.maxStamina1 cfg.stunThreshold1 (-40) true,
    p2 := initialCharacter cfg.maxStamina2 cfg.stunThreshold2 40 false,
    buf1 := { capacity := cfg.bufferCapacity, entries := [] },
    buf2 := { capacity := cfg.bufferCapacity, entries := [] },
    tickNo := 0, events := [], outcome := .inProgress }

/-- Modelled from the spec: run a round from round start over a recorded
sequence of raw input events (one snapshot per character per tick). -/
def runRound (cfg : Config) (inputs : List (Snap × Snap)) : SimState :=
  inputs.foldl (fun s p => tick cfg s p.1 p.2) (roundStart cfg)

/-- Modelled from the spec: the per-tick observable trace of a round — the
state after every tick, carrying positions, selected actions, HitEvents
and the outcome. -/
def runTrace (cfg : Config) (inputs : List (Snap × Snap)) : List SimState :=
  inputs.scanl (fun s p => tick cfg s p.1 p.2) (roundStart cfg)

/-! ## Concrete character data used by witnesses and counterexamples -/

/-- A hitbox element every attribute of which the schema accepts; its only
knockback datum is the single scalar knockback attribute. -/
def exHitboxAttrs : Attrs :=
  [("x_offset", .int 5), ("y_offset", .int 5), ("width", .int 8),
   ("height", .int 8), ("damage", .int 12), ("hitstun", .int 10),
   ("blockstun", .int 6), ("knockback", .int 40), ("dizzy_stun", .int 3),
   ("effect", .int 0), ("can_block_high", .bool true),
   ("can_block_low", .bool false)]

/-- A hurtbox element the schema accepts. -/
def exHurtboxAttrs : Attrs :=
  [("x_offset", .int 0), ("y_offset", .int 0), ("width", .int 10),
   ("height", .int 20)]

/-- A frame element the schema accepts. -/
def exFrame : RawFrame :=
  { hurtboxes := [exHurtboxAttrs], hitboxes := [exHitboxAttrs],
    projectiles := [],
    attrs := [("duration", .int 3), ("cancelable", .int 0),
              ("move_x", .int 0), ("move_y", .int 0)] }

/-- An action's attribute list the schema accepts. -/
def exActionAttrs : Attrs :=
  [("name", .str "Hadouken"), ("spritesheet_path", .str "h.png"),
   ("x_offset", .int 0), ("condition", .int 0), ("is_multi_hit", .bool false),
   ("input_priority", .int 5), ("meter_gain", .int 10),
   ("meter_needed", .int 0), ("proximity", .int 0),
   ("start_counter_frame", .int 0)]

/-- An accepted action whose InputSequence is a quarter-circle motion. -/
def exAction : RawAction :=
  { frames := [exFrame],
    inputLists := [[["Down"], ["Forward"], ["Light Punch"]]],
    attrs := exActionAttrs }

/-- An accepted action whose single input_list holds zero input steps. -/
def exWalkAction : RawAction :=
  { frames := [exFrame], inputLists := [[]], attrs := exActionAttrs }

/-! ## Theorems -/

/-- C9: check_pygame_modules returns exactly pygame.font.get_init()'s
value: the display check compares a function object to False and the mixer
check compares a tuple-or-None to False, so neither ever fires, and only
the font check can set the result to False. -/
theorem launcher_module_check_font_only (st : PygameState) :
    check_pygame_modules st = st.fontInit := by
  rcases st with ⟨d, f, m⟩
  rcases m with _ | ⟨f1, f2, f3⟩ <;> cases f <;> rfl

/-- C8: history(depth) returns the most recent min(depth, length) snapshots
in chronological order (a suffix of the chronological entry list), and
returns the empty list on an empty buffer; being a pure total function it
never fails and has no side effect on the buffer. -/
theorem input_buffer_history_contract :
    (∀ (b : InputBuffer) (depth : Nat),
        (history b depth).length = min depth b.entries.length) ∧
    (∀ (b : InputBuffer) (depth : Nat),
        b.entries = b.entries.take (b.entries.length - depth) ++ history b depth) ∧
    (∀ (b : InputBuffer) (depth : Nat),
        b.entries = [] → history b depth = []) := by
  refine ⟨?_, ?_, ?_⟩
  · intro b depth
    simp only [history, List.length_drop]
    omega
  · intro b depth
    exact (List.take_append_drop _ _).symm
  · intro b depth h
    simp [history, h]

/-- C6: every symbol of every step of the InputSequence of an action the
schema accepts belongs to the fixed 10-symbol alphabet; a step with a
symbol outside it is rejected, so no other symbol is ever accepted. -/
theorem input_symbols_in_alphabet (a : RawAction) (h : validAction a = true) :
    ∀ il ∈ a.inputLists, ∀ stp ∈ il, ∀ s ∈ stp, s ∈ inputAlphabet := by
  intro il hil stp hstp s hs
  simp only [validAction, Bool.and_eq_true, List.all_eq_true] at h
  have h2 := h.1.2 il hil
  simp only [validInputList, List.all_eq_true] at h2
  have h3 := h2 stp hstp
  simp only [validInputStep, Bool.and_eq_true, List.all_eq_true,
    decide_eq_true_eq] at h3
  exact h3.2 s hs

/-- Witness for C6: the accepted quarter-circle action only uses alphabet
symbols, for example Down. -/
theorem input_symbols_in_alphabet_witness : "Down" ∈ inputAlphabet :=
  input_symbols_in_alphabet exAction (by decide)
    [["Down"], ["Forward"], ["Light Punch"]] (by decide)
    ["Down"] (by decide) "Down" (by decide)

/-- C10: an action the schema accepts has at least one frame (so its first
frame exists) and exactly one input list, and an action whose single input
list holds zero input steps is accepted. -/
theorem action_first_frame_total :
    (∀ a : RawAction, validAction a = true →
        (∃ f, a.frames.head? = some f) ∧ a.inputLists.length = 1) ∧
    (validAction exWalkAction = true ∧ exWalkAction.inputLists = [[]]) := by
  constructor
  · intro a h
    simp only [validAction, Bool.and_eq_true, decide_eq_true_eq] at h
    obtain ⟨⟨⟨⟨hlen, _⟩, hone⟩, _⟩, _⟩ := h
    refine ⟨?_, hone⟩
    cases hf : a.frames with
    | nil => rw [hf] at hlen; simp at hlen
    | cons f t => exact ⟨f, rfl⟩
  · exact ⟨by decide, rfl⟩

/-- An element accepted against a complex type supplies every required
attribute with a value of the declared simple type. -/
theorem checkAttrs_required {spec : List AttrDecl} {as : Attrs}
    (h : checkAttrs spec as = true) {d : AttrDecl} (hd : d ∈ spec)
    (hr : d.required = true) :
    ∃ v, lookupAttr as d.name = some v ∧ v.hasType d.type = true := by
  unfold checkAttrs at h
  rw [Bool.and_eq_true] at h
  have h1 := h.1
  rw [List.all_eq_true] at h1
  have hthis := h1 d hd
  cases hv : lookupAttr as d.name with
  | none => rw [hv] at hthis; rw [hr] at hthis; simp at hthis
  | some v => exact ⟨v, rfl, by rw [hv] at hthis; exact hthis⟩

/-- A value conforming to an integer-range type is an in-range integer. -/
theorem hasType_intRange {v : AttrVal} {lo : Int} {hi : Option Int}
    (h : v.hasType (.intRange lo hi) = true) :
    ∃ n, v = .int n ∧ lo ≤ n ∧ ∀ b, hi = some b → n ≤ b := by
  cases v with
  | int n =>
    cases hi with
    | none =>
      simp only [AttrVal.hasType, Bool.and_eq_true, decide_eq_true_eq] at h
      exact ⟨n, rfl, h.1, fun b hb => by cases hb⟩
    | some b =>
      simp only [AttrVal.hasType, Bool.and_eq_true, decide_eq_true_eq] at h
      exact ⟨n, rfl, h.1, fun b' hb' => by injection hb' with e; rw [← e]; exact h.2⟩
  | bool b => simp [AttrVal.hasType] at h
  | str s => simp [AttrVal.hasType] at h

/-- A value conforming to the boolean type is a boolean. -/
theorem hasType_bool {v : AttrVal} (h : v.hasType .boolT = true) :
    ∃ b, v = .bool b := by
  cases v with
  | int n => simp [AttrVal.hasType] at h
  | bool b => exact ⟨b, rfl⟩
  | str s => simp [AttrVal.hasType] at h

/-- C7 counterexample: the hitbox complex type's attributes are exactly the
twelve listed names; its only knockback datum is the single scalar
integer attribute knockback, with no second component, as the accepted
concrete hitbox element shows. -/
theorem hitbox_knockback_scalar_counterexample :
    hitboxAttrDecls.map AttrDecl.name =
      ["x_offset", "y_offset", "width", "height", "damage", "hitstun",
       "blockstun", "knockback", "dizzy_stun", "effect", "can_block_high",
       "can_block_low"] ∧
    checkAttrs hitboxAttrDecls exHitboxAttrs = true ∧
    lookupAttr exHitboxAttrs "knockback" = some (.int 40) ∧
    lookupAttr exHitboxAttrs "knockback_x" = none ∧
    lookupAttr exHitboxAttrs "knockback_y" = none := by
  refine ⟨by decide, by decide, by decide, by decide, by decide⟩

/-- C7 as the schema supports it: an accepted hitbox element carries its
rectangle attributes plus a damage value, hitstun ticks, blockstun ticks, a
single scalar knockback magnitude (0..384), a dizzy-stun contribution, an
effect category in {0, 1, 2} (normal, launcher, unblockable-class), and
high/low blockability flags. -/
theorem hitbox_schema_fields (as : Attrs)
    (h : checkAttrs hitboxAttrDecls as = true) :
    (∃ n, lookupAttr as "x_offset" = some (.int n)) ∧
    (∃ n, lookupAttr as "y_offset" = some (.int n)) ∧
    (∃ n, lookupAttr as "width" = some (.int n)) ∧
    (∃ n, lookupAttr as "height" = some (.int n)) ∧
    (∃ n, lookupAttr as "damage" = some (.int n) ∧ 0 ≤ n) ∧
    (∃ n, lookupAttr as "hitstun" = some (.int n) ∧ 0 ≤ n) ∧
    (∃ n, lookupAttr as "blockstun" = some (.int n) ∧ 0 ≤ n) ∧
    (∃ n, lookupAttr as "knockback" = some (.int n) ∧ 0 ≤ n ∧ n ≤ 384) ∧
    (∃ n, lookupAttr as "dizzy_stun" = some (.int n) ∧ 0 ≤ n) ∧
    (∃ n, lookupAttr as "effect" = some (.int n) ∧ (n = 0 ∨ n = 1 ∨ n = 2)) ∧
    (∃ b, lookupAttr as "can_block_high" = some (.bool b)) ∧
    (∃ b, lookupAttr as "can_block_low" = some (.bool b)) := by
  obtain ⟨v1, hv1, ht1⟩ := checkAttrs_required h
    (show (⟨"x_offset", xAttribute, true⟩ : AttrDecl) ∈ hitboxAttrDecls by decide) rfl
  obtain ⟨n1, rfl, -, -⟩ := hasType_intRange ht1
  obtain ⟨v2, hv2, ht2⟩ := checkAttrs_required h
    (show (⟨"y_offset", yAttribute, true⟩ : AttrDecl) ∈ hitboxAttrDecls by decide) rfl
  obtain ⟨n2, rfl, -, -⟩ := hasType_intRange ht2
  obtain ⟨v3, hv3, ht3⟩ := checkAttrs_required h
    (show (⟨"width", xAttribute, true⟩ : AttrDecl) ∈ hitboxAttrDecls by decide) rfl
  obtain ⟨n3, rfl, -, -⟩ := hasType_intRange ht3
  obtain ⟨v4, hv4, ht4⟩ := checkAttrs_required h
    (show (⟨"height", yAttribute, true⟩ : AttrDecl) ∈ hitboxAttrDecls by decide) rfl
  obtain ⟨n4, rfl, -, -⟩ := hasType_intRange ht4
  obtain ⟨v5, hv5, ht5⟩ := checkAttrs_required h
    (show (⟨"damage", positiveOrZero, true⟩ : AttrDecl) ∈ hitboxAttrDecls by decide) rfl
  obtain ⟨n5, rfl, hlo5, -⟩ := hasType_intRange ht5
  obtain ⟨v6, hv6, ht6⟩ := checkAttrs_required h
    (show (⟨"hitstun", positiveOrZero, true⟩ : AttrDecl) ∈ hitboxAttrDecls by decide) rfl
  obtain ⟨n6, rfl, hlo6, -⟩ := hasType_intRange ht6
  obtain ⟨v7, hv7, ht7⟩ := checkAttrs_required h
    (show (⟨"blockstun", positiveOrZero, true⟩ : AttrDecl) ∈ hitboxAttrDecls by decide) rfl
  obtain ⟨n7, rfl, hlo7, -⟩ := hasType_intRange ht7
  obtain ⟨v8, hv8, ht8⟩ := checkAttrs_required h
    (show (⟨"knockback", xAttribute, true⟩ : AttrDecl) ∈ hitboxAttrDecls by decide) rfl
  obtain ⟨n8, rfl, hlo8, hhi8⟩ := hasType_intRange ht8
  obtain ⟨v9, hv9, ht9⟩ := checkAttrs_required h
    (show (⟨"dizzy_stun", positiveOrZero, true⟩ : AttrDecl) ∈ hitboxAttrDecls by decide) rfl
  obtain ⟨n9, rfl, hlo9, -⟩ := hasType_intRange ht9
  obtain ⟨v10, hv10, ht10⟩ := checkAttrs_required h
    (show (⟨"effect", effectAttribute, true⟩ : AttrDecl) ∈ hitboxAttrDecls by decide) rfl
  obtain ⟨n10, rfl, hlo10, hhi10⟩ := hasType_intRange ht10
  obtain ⟨v11, hv11, ht11⟩ := checkAttrs_required h
    (show (⟨"can_block_high", .boolT, true⟩ : AttrDecl) ∈ hitboxAttrDecls by decide) rfl
  obtain ⟨b11, rfl⟩ := hasType_bool ht11
  obtain ⟨v12, hv12, ht12⟩ := checkAttrs_required h
    (show (⟨"can_block_low", .boolT, true⟩ : AttrDecl) ∈ hitboxAttrDecls by decide) rfl
  obtain ⟨b12, rfl⟩ := hasType_bool ht12
  have heff : n10 = 0 ∨ n10 = 1 ∨ n10 = 2 := by
    have := hhi10 2 rfl
    omega
  exact ⟨⟨n1, hv1⟩, ⟨n2, hv2⟩, ⟨n3, hv3⟩, ⟨n4, hv4⟩, ⟨n5, hv5, hlo5⟩,
    ⟨n6, hv6, hlo6⟩, ⟨n7, hv7, hlo7⟩, ⟨n8, hv8, hlo8, hhi8 384 rfl⟩,
    ⟨n9, hv9, hlo9⟩, ⟨n10, hv10, heff⟩, ⟨b11, hv11⟩, ⟨b12, hv12⟩⟩

/-- Witness for the amended C7 at the concrete accepted hitbox element. -/
theorem hitbox_schema_fields_witness :
    (∃ n, lookupAttr exHitboxAttrs "x_offset" = some (.int n)) ∧
    (∃ n, lookupAttr exHitboxAttrs "y_offset" = some (.int n)) ∧
    (∃ n, lookupAttr exHitboxAttrs "width" = some (.int n)) ∧
    (∃ n, lookupAttr exHitboxAttrs "height" = some (.int n)) ∧
    (∃ n, lookupAttr exHitboxAttrs "damage" = some (.int n) ∧ 0 ≤ n) ∧
    (∃ n, lookupAttr exHitboxAttrs "hitstun" = some (.int n) ∧ 0 ≤ n) ∧
    (∃ n, lookupAttr exHitboxAttrs "blockstun" = some (.int n) ∧ 0 ≤ n) ∧
    (∃ n, lookupAttr exHitboxAttrs "knockback" = some (.int n) ∧ 0 ≤ n ∧ n ≤ 384) ∧
    (∃ n, lookupAttr exHitboxAttrs "dizzy_stun" = some (.int n) ∧ 0 ≤ n) ∧
    (∃ n, lookupAttr exHitboxAttrs "effect" = some (.int n) ∧ (n = 0 ∨ n = 1 ∨ n = 2)) ∧
    (∃ b, lookupAttr exHitboxAttrs "can_block_high" = some (.bool b)) ∧
    (∃ b, lookupAttr exHitboxAttrs "can_block_low" = some (.bool b)) :=
  hitbox_schema_fields exHitboxAttrs (by decide)

/-- Dropping the first step of a matchable sequence keeps it matchable over
the same history. -/
theorem MatchRel.tail : ∀ {seq : InputSeq} {hist : List Snap} {s : Snap}
    {rest : InputSeq}, MatchRel seq hist → seq = s :: rest → MatchRel rest hist := by
  intro seq hist s rest h
  induction h generalizing s rest with
  | nil _ => intro he; cases he
  | consume step r snap hist2 hsat hrel ih =>
    intro he
    injection he with e1 e2
    subst e2
    exact .skip _ _ _ hrel
  | skip sq snap hist2 hrel ih =>
    intro he
    subst he
    exact .skip _ _ _ (ih rfl)

/-- Soundness of the forward scan: a successful scan yields a derivation of
the declarative matching relation. -/
theorem matchScan_sound : ∀ (hist : List Snap) (seq : InputSeq),
    matchScan seq hist = true → MatchRel seq hist := by
  intro hist
  induction hist with
  | nil =>
    intro seq h
    cases seq with
    | nil => exact .nil []
    | cons s r => simp [matchScan] at h
  | cons snap t ih =>
    intro seq h
    cases seq with
    | nil => exact .nil _
    | cons s r =>
      by_cases hs : stepSatisfied s snap = true
      · rw [matchScan, if_pos hs] at h
        exact .consume _ _ _ _ hs (ih r h)
      · rw [matchScan, if_neg hs] at h
        exact .skip _ _ _ (ih (s :: r) h)

/-- Completeness of the forward scan: any derivation of the declarative
matching relation makes the scan succeed. -/
theorem matchScan_complete : ∀ (hist : List Snap) (seq : InputSeq),
    MatchRel seq hist → matchScan seq hist = true := by
  intro hist
  induction hist with
  | nil =>
    intro seq h
    cases seq with
    | nil => rfl
    | cons s r => cases h
  | cons snap t ih =>
    intro seq h
    cases seq with
    | nil => rfl
    | cons s r =>
      by_cases hs : stepSatisfied s snap = true
      · have hr : MatchRel r t := by
          cases h with
          | consume _ _ _ _ _ hrel => exact hrel
          | skip _ _ _ hrel => exact hrel.tail rfl
        rw [matchScan, if_pos hs]
        exact ih r hr
      · have hr : MatchRel (s :: r) t := by
          cases h with
          | consume _ _ _ _ hsat hrel => exact absurd hsat hs
          | skip _ _ _ hrel => exact hrel
        rw [matchScan, if_neg hs]
        exact ih (s :: r) hr

/-- C2: matches(sequence, history) succeeds exactly when every step is
satisfied by some snapshot, consumed in chronological order without reuse
and with noise snapshots skipped; the quarter-circle sequence matches the
history with a noise snapshot interposed and fails on the out-of-order
history. -/
theorem motion_matcher_matches_spec :
    (∀ (seq : InputSeq) (hist : List Snap),
        seqMatches seq hist = true ↔ MatchRel seq hist) ∧
    seqMatches [[.down], [.forward], [.lightP]]
      [[.down], [.down, .up], [.forward], [.lightP]] = true ∧
    seqMatches [[.down], [.forward], [.lightP]]
      [[.forward], [.down], [.lightP]] = false := by
  refine ⟨fun seq hist => ⟨matchScan_sound hist seq, matchScan_complete hist seq⟩,
    by decide, by decide⟩

/-- find? returns the first element satisfying the predicate: the list
splits at it with everything before failing the predicate. -/
theorem find?_first {α : Type} (p : α → Bool) :
    ∀ (l : List α) (a : α), l.find? p = some a →
      ∃ l1 l2, l = l1 ++ a :: l2 ∧ (∀ x ∈ l1, p x = false) ∧ p a = true := by
  intro l
  induction l with
  | nil => intro a h; simp at h
  | cons b t ih =>
    intro a h
    by_cases hb : p b = true
    · rw [List.find?_cons_of_pos _ hb] at h
      injection h with e
      subst e
      exact ⟨[], t, rfl, by simp, hb⟩
    · rw [List.find?_cons_of_neg _ (by simpa using hb)] at h
      obtain ⟨l1, l2, rfl, hl1, ha⟩ := ih a h
      refine ⟨b :: l1, l2, rfl, ?_, ha⟩
      intro x hx
      rcases List.mem_cons.mp hx with rfl | hx2
      · exact Bool.not_eq_true _ ▸ Bool.eq_false_iff.mpr hb
      · exact hl1 x hx2

/-- The HitEvent a resolved pair produces comes from the first qualifying
hitbox in declaration order. -/
theorem resolvePair_some_decomp {aId dId : Nat} {hbs : List Hitbox}
    {cd : Bool} {d : DefenderInfo} {ev : HitEvent}
    (h : resolvePair aId dId hbs cd d = some ev) :
    ∃ pre hb post, hbs = pre ++ hb :: post ∧ hbQualifies hb d = true ∧
      (∀ x ∈ pre, hbQualifies x d = false) ∧ ev = resolveHit aId dId hb d := by
  unfold resolvePair at h
  split at h
  · cases h
  · cases hf : hbs.find? (fun hb => hbQualifies hb d) with
    | none => rw [hf] at h; cases h
    | some hb =>
      rw [hf] at h
      injection h with e
      obtain ⟨l1, l2, hsplit, hpre, hq⟩ := find?_first _ hbs hb hf
      exact ⟨l1, hb, l2, hsplit, hq, hpre, e.symm⟩

/-- The event a resolved pair produces names that pair's attacker and
defender, and records the hitbox that landed. -/
theorem resolvePair_ids {aId dId : Nat} {hbs : List Hitbox} {cd : Bool}
    {d : DefenderInfo} {ev : HitEvent}
    (h : resolvePair aId dId hbs cd d = some ev) :
    ev.attacker = aId ∧ ev.defender = dId ∧ ev.hitbox ∈ hbs := by
  obtain ⟨pre, hb, post, hsplit, hq, hpre, rfl⟩ := resolvePair_some_decomp h
  have hmem : hb ∈ pre ++ hb :: post := by simp
  rw [← hsplit] at hmem
  have hhb : (resolveHit aId dId hb d).hitbox = hb := by
    unfold resolveHit; split <;> rfl
  refine ⟨?_, ?_, by rw [hhb]; exact hmem⟩ <;>
  · unfold resolveHit
    split <;> rfl

/-- C4: one tick's resolution pass yields at most one HitEvent per ordered
(attacker, defender) pair, and the event a pair gets comes from the first
qualifying hitbox in declaration order. -/
theorem one_hitevent_per_pair :
    (∀ (hbs1 : List Hitbox) (cd1 : Bool) (d1 : DefenderInfo)
        (hbs2 : List Hitbox) (cd2 : Bool) (d2 : DefenderInfo) (aId dId : Nat),
        ((resolveTick hbs1 cd1 d1 hbs2 cd2 d2).filter
          (fun e => decide (e.attacker = aId) && decide (e.defender = dId))).length ≤ 1) ∧
    (∀ (aId dId : Nat) (hbs : List Hitbox) (cd : Bool) (d : DefenderInfo)
        (ev : HitEvent), resolvePair aId dId hbs cd d = some ev →
        ∃ pre hb post, hbs = pre ++ hb :: post ∧ hbQualifies hb d = true ∧
          (∀ x ∈ pre, hbQualifies x d = false) ∧ ev = resolveHit aId dId hb d) := by
  constructor
  · intro hbs1 cd1 d1 hbs2 cd2 d2 aId dId
    cases h1 : resolvePair 1 2 hbs1 cd1 d2 with
    | none =>
      cases h2 : resolvePair 2 1 hbs2 cd2 d1 with
      | none => simp [resolveTick, h1, h2]
      | some e2 =>
        simp only [resolveTick, h1, h2, Option.toList_none, Option.toList_some,
          List.nil_append]
        exact le_trans (List.length_filter_le _ _) (by simp)
    | some e1 =>
      cases h2 : resolvePair 2 1 hbs2 cd2 d1 with
      | none =>
        simp only [resolveTick, h1, h2, Option.toList_none, Option.toList_some,
          List.append_nil]
        exact le_trans (List.length_filter_le _ _) (by simp)
      | some e2 =>
        obtain ⟨ha1, hd1, -⟩ := resolvePair_ids h1
        obtain ⟨ha2, hd2, -⟩ := resolvePair_ids h2
        simp only [resolveTick, h1, h2, Option.toList_some]
        by_cases p1 : (decide (e1.attacker = aId) && decide (e1.defender = dId)) = true
        · by_cases p2 : (decide (e2.attacker = aId) && decide (e2.defender = dId)) = true
          · rw [Bool.and_eq_true, decide_eq_true_eq, decide_eq_true_eq] at p1 p2
            omega
          · simp [List.filter, p1, p2]
        · by_cases p2 : (decide (e2.attacker = aId) && decide (e2.defender = dId)) = true
          · simp [List.filter, p1, p2]
          · simp [List.filter, p1, p2]
  · intro aId dId hbs cd d ev h
    exact resolvePair_some_decomp h

/-- C5: the downgrade to a blocked event happens exactly when the defender
is blocking and the hitbox's flags permit blocking from the current guard
stance; a hitbox blockable high but not low, against a low guard, resolves
to a full hit (hitstun, full damage outside a counter window), and any
event the pair resolver produces from such a hitbox against a low guard is
unblocked with full hitstun. -/
theorem block_flags_resolution :
    (∀ (aId dId : Nat) (hb : Hitbox) (d : DefenderInfo),
        (resolveHit aId dId hb d).blocked = (d.blocking && canBlock hb d.stance)) ∧
    (∀ (aId dId : Nat) (hb : Hitbox) (d : DefenderInfo),
        d.stance = GuardStance.low → hb.can_block_high = true →
        hb.can_block_low = false →
        (resolveHit aId dId hb d).blocked = false ∧
        (resolveHit aId dId hb d).stun = hb.hitstun ∧
        (d.counterOpen = false → (resolveHit aId dId hb d).damage = hb.damage)) ∧
    (∀ (aId dId : Nat) (hbs : List Hitbox) (cd : Bool) (d : DefenderInfo)
        (ev : HitEvent), resolvePair aId dId hbs cd d = some ev →
        d.stance = GuardStance.low → ev.hitbox.can_block_high = true →
        ev.hitbox.can_block_low = false →
        ev.blocked = false ∧ ev.stun = ev.hitbox.hitstun) := by
  have hfull : ∀ (aId dId : Nat) (hb : Hitbox) (d : DefenderInfo),
      d.stance = GuardStance.low → hb.can_block_low = false →
      resolveHit aId dId hb d =
        { attacker := aId, defender := dId, hitbox := hb, blocked := false,
          damage := if d.counterOpen then 2 * hb.damage else hb.damage,
          stun := hb.hitstun, knockback := hb.knockback } := by
    intro aId dId hb d hst hlow
    have hcb : canBlock hb d.stance = false := by rw [hst]; exact hlow
    simp [resolveHit, hcb]
  refine ⟨?_, ?_, ?_⟩
  · intro aId dId hb d
    by_cases hc : (d.blocking && canBlock hb d.stance) = true
    · simp [resolveHit, hc]
    · rw [Bool.not_eq_true] at hc
      simp [resolveHit, hc]
  · intro aId dId hb d hst hhigh hlow
    rw [hfull aId dId hb d hst hlow]
    exact ⟨rfl, rfl, fun hco => by simp [hco]⟩
  · intro aId dId hbs cd d ev h hst hhigh hlow
    obtain ⟨pre, hb, post, -, -, -, rfl⟩ := resolvePair_some_decomp h
    have hhb : (resolveHit aId dId hb d).hitbox = hb := by
      by_cases hc : (d.blocking && canBlock hb d.stance) = true
      · simp [resolveHit, hc]
      · rw [Bool.not_eq_true] at hc; simp [resolveHit, hc]
    rw [hhb] at hlow
    rw [hfull aId dId hb d hst hlow]
    exact ⟨rfl, rfl⟩

/-- Entering an action leaves stamina unchanged. -/
theorem beginAction_stamina (tbl : List ActionDef) (st : CharacterState)
    (i : Nat) : (beginAction tbl st i).stamina = st.stamina := rfl

/-- Advancing the frame timer leaves stamina unchanged. -/
theorem advanceTimer_stamina (tbl : List ActionDef) (st : CharacterState)
    (dist : Int) (hist : List Snap) :
    (advanceTimer tbl st dist hist).stamina = st.stamina := by
  unfold advanceTimer
  split
  · rfl
  · dsimp only
    split
    · rfl
    · split <;> rfl

/-- Frame translation leaves stamina unchanged. -/
theorem applyMove_stamina (ar : Arena) (st : CharacterState) (fr : FrameDef) :
    (applyMove ar st fr).stamina = st.stamina := rfl

/-- The Character State Machine's own tick never changes stamina; only hit
application does. -/
theorem stepCharacter_stamina (tbl : List ActionDef) (ar : Arena)
    (st : CharacterState) (dist : Int) (hist : List Snap) :
    (stepCharacter tbl ar st dist hist).stamina = st.stamina := by
  unfold stepCharacter
  split
  · rfl
  · split
    · rfl
    · dsimp only
      split
      · split
        · rw [applyMove_stamina, beginAction_stamina]
        · rw [applyMove_stamina, advanceTimer_stamina]
      · rw [applyMove_stamina, advanceTimer_stamina]

/-- Attacker rewards leave stamina unchanged. -/
theorem rewardAttacker_stamina (tbl : List ActionDef) (who : Nat)
    (st : CharacterState) (evs : List HitEvent) :
    (rewardAttacker tbl who st evs).stamina = st.stamina := by
  unfold rewardAttacker
  dsimp only
  split <;> rfl

/-- Hit application clamps stamina at zero, so it is never negative. -/
theorem applyHit_stamina_nonneg (st : CharacterState) (ev : HitEvent) :
    0 ≤ (applyHit st ev).stamina :=
  le_max_left 0 _

/-- Applying any batch of HitEvents keeps stamina non-negative. -/
theorem applyEvents_stamina_nonneg (who : Nat) (evs : List HitEvent) :
    ∀ st : CharacterState, 0 ≤ st.stamina →
      0 ≤ (applyEvents who st evs).stamina := by
  induction evs with
  | nil => intro st h; exact h
  | cons e t ih =>
    intro st h
    simp only [applyEvents, List.foldl_cons]
    have h' : 0 ≤ (if e.defender = who then applyHit st e else st).stamina := by
      split
      · exact applyHit_stamina_nonneg st e
      · exact h
    exact ih _ h'

/-- Hit application then attacker rewards keep a non-negative stamina. -/
theorem post_stamina_nonneg (tbl : List ActionDef) (who : Nat)
    (st : CharacterState) (evs : List HitEvent) (h : 0 ≤ st.stamina) :
    0 ≤ (rewardAttacker tbl who (applyEvents who st evs) evs).stamina := by
  rw [rewardAttacker_stamina]
  exact applyEvents_stamina_nonneg who evs st h

/-- The state machine's own step keeps a non-negative stamina. -/
theorem stepCharacter_stamina_nonneg (tbl : List ActionDef) (ar : Arena)
    (st : CharacterState) (dist : Int) (hist : List Snap)
    (h : 0 ≤ st.stamina) : 0 ≤ (stepCharacter tbl ar st dist hist).stamina := by
  rw [stepCharacter_stamina]
  exact h

/-- Both characters' stamina stays non-negative across one orchestrator
tick. -/
theorem tick_stamina_nonneg (cfg : Config) (s : SimState) (in1 in2 : Snap)
    (h1 : 0 ≤ s.p1.stamina) (h2 : 0 ≤ s.p2.stamina) :
    0 ≤ (tick cfg s in1 in2).p1.stamina ∧ 0 ≤ (tick cfg s in1 in2).p2.stamina := by
  unfold tick
  split
  · exact ⟨h1, h2⟩
  · exact ⟨post_stamina_nonneg _ _ _ _ (stepCharacter_stamina_nonneg _ _ _ _ _ h1),
      post_stamina_nonneg _ _ _ _ (stepCharacter_stamina_nonneg _ _ _ _ _ h2)⟩

/-- Running a round keeps both characters' stamina non-negative. -/
theorem runRound_stamina_nonneg (cfg : Config) (inputs : List (Snap × Snap)) :
    0 ≤ (runRound cfg inputs).p1.stamina ∧ 0 ≤ (runRound cfg inputs).p2.stamina := by
  unfold runRound
  have hstep : ∀ (l : List (Snap × Snap)) (s : SimState),
      0 ≤ s.p1.stamina ∧ 0 ≤ s.p2.stamina →
      0 ≤ (l.foldl (fun s p => tick cfg s p.1 p.2) s).p1.stamina ∧
      0 ≤ (l.foldl (fun s p => tick cfg s p.1 p.2) s).p2.stamina := by
    intro l
    induction l with
    | nil => intro s h; exact h
    | cons a t ih =>
      intro s h
      exact ih _ (tick_stamina_nonneg cfg s a.1 a.2 h.1 h.2)
  exact hstep inputs (roundStart cfg) ⟨Int.natCast_nonneg _, Int.natCast_nonneg _⟩

/-- C3: stamina is never negative — at round start, across every tick of
any round, and under any single HitEvent, whose clamp at zero forces the
KO transition. -/
theorem stamina_never_negative :
    (∀ (cfg : Config) (inputs : List (Snap × Snap)),
        0 ≤ (runRound cfg inputs).p1.stamina ∧
        0 ≤ (runRound cfg inputs).p2.stamina) ∧
    (∀ (st : CharacterState) (ev : HitEvent), 0 ≤ (applyHit st ev).stamina) ∧
    (∀ (st : CharacterState) (ev : HitEvent),
        (applyHit st ev).stamina = 0 → (applyHit st ev).ko = true) := by
  refine ⟨runRound_stamina_nonneg, applyHit_stamina_nonneg, ?_⟩
  intro st ev h
  simp only [applyHit] at h ⊢
  simp [h]

/-- An Action Table and stat block used by the determinism witness. -/
def exConfig : Config :=
  { tbl1 := [defaultActionDef], tbl2 := [defaultActionDef],
    arena := { left := -100, right := 100 },
    maxStamina1 := 100, maxStamina2 := 100,
    stunThreshold1 := 30, stunThreshold2 := 30, bufferCapacity := 8 }

/-- A two-tick recorded input sequence used by the determinism witness. -/
def exInputs : List (Snap × Snap) :=
  [([Sym.down], []), ([Sym.forward], [Sym.lightP])]

/-- C1: the simulation is a pure function of the Action Tables and the
recorded input sequence — no randomness and no wall clock enter any tick —
so two runs from round start over identical inputs agree on the final
state (both CharacterStates, positions, selected actions, outcome) and on
the whole per-tick observable trace including every tick's HitEvents. -/
theorem simulation_deterministic (cfg cfg' : Config)
    (inputs inputs' : List (Snap × Snap)) (hc : cfg = cfg')
    (hi : inputs = inputs') :
    runRound cfg inputs = runRound cfg' inputs' ∧
    runTrace cfg inputs = runTrace cfg' inputs' := by
  subst hc
  subst hi
  exact ⟨rfl, rfl⟩

/-- Witness for C1 at a concrete Action Table and input recording. -/
theorem simulation_deterministic_witness :
    runRound exConfig exInputs = runRound exConfig exInputs ∧
    runTrace exConfig exInputs = runTrace exConfig exInputs :=
  simulation_deterministic exConfig exConfig exInputs exInputs rfl rfl

end SWC
